import Mathlib

/-!
Shallow embedding of the Skribidi example testbed
(`src/example/example_testbed.c`): the view transform, the input router,
the IME coordination, the teardown sequence and the caret-boundary
resolver of the debug overlay.  C `float` values are modelled as
rationals; C `int32_t` casts are modelled as truncation toward zero
(32-bit overflow is out of scope).  External editor operations are kept
abstract as trace actions; where a claim needs their behaviour and the
code is not under `src/`, the definition is modelled from the spec and
says so in its doc comment.
-/

/-- GLFW action constant `GLFW_RELEASE`. -/
def GLFW_RELEASE : Nat := 0

/-- GLFW action constant `GLFW_PRESS`. -/
def GLFW_PRESS : Nat := 1

/-- GLFW action constant `GLFW_REPEAT`. -/
def GLFW_REPEAT : Nat := 2

/-- GLFW modifier bit `GLFW_MOD_SHIFT`. -/
def GLFW_MOD_SHIFT : Nat := 1

/-- GLFW modifier bit `GLFW_MOD_CONTROL`. -/
def GLFW_MOD_CONTROL : Nat := 2

/-- GLFW key code `GLFW_KEY_A`. -/
def GLFW_KEY_A : Nat := 65

/-- GLFW key code `GLFW_KEY_C`. -/
def GLFW_KEY_C : Nat := 67

/-- GLFW key code `GLFW_KEY_V`. -/
def GLFW_KEY_V : Nat := 86

/-- GLFW key code `GLFW_KEY_X`. -/
def GLFW_KEY_X : Nat := 88

/-- GLFW key code `GLFW_KEY_Z`. -/
def GLFW_KEY_Z : Nat := 90

/-- GLFW key code `GLFW_KEY_ESCAPE`. -/
def GLFW_KEY_ESCAPE : Nat := 256

/-- GLFW key code `GLFW_KEY_ENTER`. -/
def GLFW_KEY_ENTER : Nat := 257

/-- GLFW key code `GLFW_KEY_TAB`. -/
def GLFW_KEY_TAB : Nat := 258

/-- GLFW key code `GLFW_KEY_BACKSPACE`. -/
def GLFW_KEY_BACKSPACE : Nat := 259

/-- GLFW key code `GLFW_KEY_DELETE`. -/
def GLFW_KEY_DELETE : Nat := 261

/-- GLFW key code `GLFW_KEY_RIGHT`. -/
def GLFW_KEY_RIGHT : Nat := 262

/-- GLFW key code `GLFW_KEY_LEFT`. -/
def GLFW_KEY_LEFT : Nat := 263

/-- GLFW key code `GLFW_KEY_DOWN`. -/
def GLFW_KEY_DOWN : Nat := 264

/-- GLFW key code `GLFW_KEY_UP`. -/
def GLFW_KEY_UP : Nat := 265

/-- GLFW key code `GLFW_KEY_HOME`. -/
def GLFW_KEY_HOME : Nat := 268

/-- GLFW key code `GLFW_KEY_END`. -/
def GLFW_KEY_END : Nat := 269

/-- GLFW key code `GLFW_KEY_F7`. -/
def GLFW_KEY_F7 : Nat := 296

/-- GLFW key code `GLFW_KEY_F8`. -/
def GLFW_KEY_F8 : Nat := 297

/-- GLFW key code `GLFW_KEY_F9`. -/
def GLFW_KEY_F9 : Nat := 298

/-- GLFW key code `GLFW_KEY_F10`. -/
def GLFW_KEY_F10 : Nat := 299

/-- GLFW mouse button `GLFW_MOUSE_BUTTON_LEFT`. -/
def GLFW_MOUSE_BUTTON_LEFT : Nat := 0

/-- GLFW mouse button `GLFW_MOUSE_BUTTON_RIGHT`. -/
def GLFW_MOUSE_BUTTON_RIGHT : Nat := 1

/-- The view camera state `view_t` of the testbed (declared in the demo's
`utils.h`; fields as used by `example_testbed.c`): centre `cx, cy` and
`scale`. -/
structure view_t where
  cx : ℚ
  cy : ℚ
  scale : ℚ
deriving DecidableEq

/-- The 2-d vector `skb_vec2_t`. -/
structure skb_vec2_t where
  x : ℚ
  y : ℚ
deriving DecidableEq

/-- Translation of `transform_mouse_pos` (example_testbed.c:371-377):
screen position to text space, `(mouse - center) / scale`. -/
def transform_mouse_pos (v : view_t) (mouse_x mouse_y : ℚ) : skb_vec2_t :=
  { x := (mouse_x - v.cx) / v.scale
  , y := (mouse_y - v.cy) / v.scale }

/-- The text-to-screen mapping used by `update_ime_rect`
(example_testbed.c:52-57): `center + p * scale`. -/
def view_to_screen (v : view_t) (p : skb_vec2_t) : skb_vec2_t :=
  { x := v.cx + p.x * v.scale
  , y := v.cy + p.y * v.scale }

/-- Modelled from the spec: `view_scroll_zoom` lives in the demo's
`utils.h`, which is not under `src/`.  The spec (§4.1) defines it as
`scale' = scale + deltaScale` and
`center' = screenPoint - (screenPoint - center) * (scale'/scale)`. -/
def view_scroll_zoom (v : view_t) (mouse_x mouse_y delta_scale : ℚ) : view_t :=
  let scale' := v.scale + delta_scale
  { cx := mouse_x - (mouse_x - v.cx) * (scale' / v.scale)
  , cy := mouse_y - (mouse_y - v.cy) * (scale' / v.scale)
  , scale := scale' }

/-- Translation of `testbed_on_mouse_scroll` (example_testbed.c:443-450):
zoom at the mouse position with `zoom_speed = 0.2`; `delta_x` is unused
by the handler. -/
def testbed_on_mouse_scroll_view (v : view_t) (mouse_x mouse_y _delta_x delta_y : ℚ) : view_t :=
  let zoom_speed : ℚ := 1/5
  view_scroll_zoom v mouse_x mouse_y (delta_y * zoom_speed)

/-- Semantics of the C cast `(int32_t)(float expr)` as used in
`update_ime_rect` (example_testbed.c:52-57): the conversion truncates
toward zero (floor for non-negative values, ceiling for negative
values). -/
def c_int32_trunc (q : ℚ) : ℤ :=
  if 0 ≤ q then ⌊q⌋ else ⌈q⌉

/-- The visual caret `skb_visual_caret_t` as consumed by
`update_ime_rect`: a position and a size, in text space. -/
structure skb_visual_caret_t where
  x : ℚ
  y : ℚ
  width : ℚ
  height : ℚ
deriving DecidableEq

/-- The integer rectangle `skb_rect2i_t` published to the IME service. -/
structure skb_rect2i_t where
  x : ℤ
  y : ℤ
  width : ℤ
  height : ℤ
deriving DecidableEq

/-- Translation of `update_ime_rect` (example_testbed.c:47-59): the rect
passed to `ime_set_input_rect`, computed from the visual caret at
`selection.end_pos` and the current view, each component cast to
`int32_t`. -/
def update_ime_rect_of (v : view_t) (caret_pos : skb_visual_caret_t) : skb_rect2i_t :=
  { x := c_int32_trunc (v.cx + caret_pos.x * v.scale)
  , y := c_int32_trunc (v.cy + caret_pos.y * v.scale)
  , width := c_int32_trunc (caret_pos.width * v.scale)
  , height := c_int32_trunc (caret_pos.height * v.scale) }

/-- Truncation toward zero of `q` to the integer `n`: `n` is no farther
from zero than `q`, within one unit of it, on the same side of zero, and
distinct from `q` whenever `q` is not an integer. -/
def trunc_toward_zero (n : ℤ) (q : ℚ) : Prop :=
  |(n : ℚ)| ≤ |q| ∧ |q| < |(n : ℚ)| + 1 ∧ (0 ≤ q → 0 ≤ n) ∧ (q ≤ 0 → n ≤ 0) ∧
    (q.den ≠ 1 → (n : ℚ) ≠ q)

/-- Effect of `testbed_on_key` (example_testbed.c:257-360) on the
`allow_char` gate, mirroring the sequential writes of the two action
blocks: the press-or-repeat block re-arms the gate and the paste branch
clears it; the press-only block re-arms it again and the select-all, cut
and copy branches clear it.  No other branch touches the gate. -/
def testbed_on_key_allow_char (key action mods : Nat) (allow_char : Bool) : Bool :=
  let ctrl := mods.land GLFW_MOD_CONTROL ≠ 0
  let a1 :=
    if action = GLFW_PRESS ∨ action = GLFW_REPEAT then
      let a := true
      let a := if key = GLFW_KEY_V ∧ ctrl then false else a
      a
    else allow_char
  if action = GLFW_PRESS then
    let a := true
    let a := if key = GLFW_KEY_A ∧ ctrl then false else a
    let a := if key = GLFW_KEY_X ∧ ctrl then false else a
    let a := if key = GLFW_KEY_C ∧ ctrl then false else a
    a
  else a1

/-- The editor keys `SKB_KEY_*` forwarded by `testbed_on_key`. -/
inductive skb_key_t
  | key_left
  | key_right
  | key_up
  | key_down
  | key_home
  | key_end
  | key_backspace
  | key_delete
  | key_enter
deriving DecidableEq

/-- Observable actions performed by the testbed handlers: calls into the
editor collaborator, clipboard writes, the IME-rect publish
(`ime_set_input_rect` via `update_ime_rect`), IME cancellation, view-drag
calls, window-close requests and debug-flag toggles. -/
inductive testbed_op
  | op_paste
  | op_undo
  | op_redo
  | op_key_pressed (k : skb_key_t)
  | op_select_all
  | op_insert_codepoint (cp : Nat)
  | op_select_none
  | op_window_close
  | op_set_clipboard
  | op_cut
  | op_publish_ime_rect
  | op_toggle_debug
  | op_set_composition
  | op_commit_composition
  | op_clear_composition
  | op_ime_cancel
  | op_view_drag_start
  | op_view_drag_move
  | op_mouse_click
  | op_mouse_drag
deriving DecidableEq, BEq

/-- Recognizes the IME-rect publish action. -/
def is_ime_publish : testbed_op → Bool
  | .op_publish_ime_rect => true
  | _ => false

/-- Number of `ime_set_input_rect` publishes in a trace. -/
def publish_count (t : List testbed_op) : Nat :=
  (t.filter is_ime_publish).length

/-- Trace of `testbed_on_key` (example_testbed.c:257-360): the
press-or-repeat block dispatches paste, undo, redo and the nine
editing/movement keys and then publishes the IME rect once; the
press-only block dispatches select-all, tab insertion, escape
(clear-selection or close), cut and copy, publishes the IME rect once
more, and finally handles the F7-F10 debug toggles.  `has_selection`
reflects `skb_editor_get_selection_text_utf32_count(..) > 0` in the
escape branch. -/
def testbed_on_key_trace (key action mods : Nat) (has_selection : Bool) : List testbed_op :=
  let ctrl := mods.land GLFW_MOD_CONTROL ≠ 0
  let shift := mods.land GLFW_MOD_SHIFT ≠ 0
  (if action = GLFW_PRESS ∨ action = GLFW_REPEAT then
    (if key = GLFW_KEY_V ∧ ctrl then [.op_paste] else []) ++
    (if key = GLFW_KEY_Z ∧ ctrl ∧ ¬shift then [.op_undo] else []) ++
    (if key = GLFW_KEY_Z ∧ ctrl ∧ shift then [.op_redo] else []) ++
    (if key = GLFW_KEY_LEFT then [.op_key_pressed .key_left] else []) ++
    (if key = GLFW_KEY_RIGHT then [.op_key_pressed .key_right] else []) ++
    (if key = GLFW_KEY_UP then [.op_key_pressed .key_up] else []) ++
    (if key = GLFW_KEY_DOWN then [.op_key_pressed .key_down] else []) ++
    (if key = GLFW_KEY_HOME then [.op_key_pressed .key_home] else []) ++
    (if key = GLFW_KEY_END then [.op_key_pressed .key_end] else []) ++
    (if key = GLFW_KEY_BACKSPACE then [.op_key_pressed .key_backspace] else []) ++
    (if key = GLFW_KEY_DELETE then [.op_key_pressed .key_delete] else []) ++
    (if key = GLFW_KEY_ENTER then [.op_key_pressed .key_enter] else []) ++
    [.op_publish_ime_rect]
  else []) ++
  (if action = GLFW_PRESS then
    (if key = GLFW_KEY_A ∧ ctrl then [.op_select_all] else []) ++
    (if key = GLFW_KEY_TAB then [.op_insert_codepoint 9] else []) ++
    (if key = GLFW_KEY_ESCAPE then
      (if has_selection then [.op_select_none] else [.op_window_close]) else []) ++
    (if key = GLFW_KEY_X ∧ ctrl then [.op_set_clipboard, .op_cut] else []) ++
    (if key = GLFW_KEY_C ∧ ctrl then [.op_set_clipboard] else []) ++
    [.op_publish_ime_rect] ++
    (if key = GLFW_KEY_F7 then [.op_toggle_debug] else []) ++
    (if key = GLFW_KEY_F8 then [.op_toggle_debug] else []) ++
    (if key = GLFW_KEY_F9 then [.op_toggle_debug] else []) ++
    (if key = GLFW_KEY_F10 then [.op_toggle_debug] else [])
  else [])

/-- Trace of `testbed_on_char` (example_testbed.c:362-369): the codepoint
is inserted only when the `allow_char` gate is armed; no IME rect is
published. -/
def testbed_on_char_trace (allow_char : Bool) (codepoint : Nat) : List testbed_op :=
  if allow_char then [.op_insert_codepoint codepoint] else []

/-- The platform IME events of `ime_event_t`. -/
inductive ime_event_t
  | composition
  | commit
  | cancel
deriving DecidableEq

/-- Trace of `ime_handler` (example_testbed.c:61-73): one editor
composition operation selected by the event kind, followed by exactly one
IME-rect publish. -/
def ime_handler_trace (event : ime_event_t) : List testbed_op :=
  (match event with
   | .composition => [.op_set_composition]
   | .commit => [.op_commit_composition]
   | .cancel => [.op_clear_composition]) ++
  [.op_publish_ime_rect]

/-- The drag flags of `testbed_context_t`: `drag_view` (ViewPan) and
`drag_text` (TextSelect). -/
structure drag_state_t where
  drag_view : Bool
  drag_text : Bool
deriving DecidableEq

/-- Translation of `testbed_on_mouse_button` (example_testbed.c:379-424)
restricted to the drag flags: a right press starts ViewPan if `drag_view`
is not yet set, a right release clears it; a left press starts TextSelect
if `drag_text` is not yet set, a left release clears it.  Each guard
tests only its own flag. -/
def testbed_on_mouse_button_drag (s : drag_state_t) (button action : Nat) : drag_state_t :=
  let s1 :=
    if button = GLFW_MOUSE_BUTTON_RIGHT then
      let s' := if action = GLFW_PRESS then
          (if s.drag_view = false then { s with drag_view := true } else s)
        else s
      if action = GLFW_RELEASE then
        (if s'.drag_view = true then { s' with drag_view := false } else s')
      else s'
    else s
  if button = GLFW_MOUSE_BUTTON_LEFT then
    let s' := if action = GLFW_PRESS then
        (if s1.drag_text = false then { s1 with drag_text := true } else s1)
      else s1
    if action = GLFW_RELEASE then
      (if s'.drag_text = true then { s' with drag_text := false } else s')
    else s'
  else s1

/-- Trace of `testbed_on_mouse_button` (example_testbed.c:379-424): a
right press with ViewPan inactive starts the view drag; a left press with
TextSelect inactive cancels the IME composition and issues a
click-to-position command; every invocation ends with exactly one
IME-rect publish. -/
def testbed_on_mouse_button_trace (s : drag_state_t) (button action : Nat) : List testbed_op :=
  (if button = GLFW_MOUSE_BUTTON_RIGHT ∧ action = GLFW_PRESS ∧ s.drag_view = false then
    [.op_view_drag_start] else []) ++
  (if button = GLFW_MOUSE_BUTTON_LEFT ∧ action = GLFW_PRESS ∧ s.drag_text = false then
    [.op_ime_cancel, .op_mouse_click] else []) ++
  [.op_publish_ime_rect]

/-- Trace of `testbed_on_mouse_move` (example_testbed.c:426-441): a pan
update plus publish while ViewPan drags, a drag-extend command plus
publish while TextSelect drags. -/
def testbed_on_mouse_move_trace (s : drag_state_t) : List testbed_op :=
  (if s.drag_view then [.op_view_drag_move, .op_publish_ime_rect] else []) ++
  (if s.drag_text then [.op_mouse_drag, .op_publish_ime_rect] else [])

/-- The teardown actions of `testbed_destroy`. -/
inductive destroy_step
  | skb_editor_destroy_op
  | skb_font_collection_destroy_op
  | skb_temp_alloc_destroy_op
  | memset_ctx
  | ime_cancel_op
  | ime_set_handler_null
  | skb_free_ctx
deriving DecidableEq, BEq

/-- Translation of `testbed_destroy` (example_testbed.c:240-255): the
exact source order of the teardown calls. -/
def testbed_destroy_steps : List destroy_step :=
  [ .skb_editor_destroy_op
  , .skb_font_collection_destroy_op
  , .skb_temp_alloc_destroy_op
  , .memset_ctx
  , .ime_cancel_op
  , .ime_set_handler_null
  , .skb_free_ctx ]

/-- The affinity values of `skb_affinity_t` used by the caret overlay. -/
inductive skb_affinity_t
  | affinity_none
  | trailing
  | leading
  | sol
  | eol
deriving DecidableEq

/-- A resolved text direction (`skb_text_direction_t` restricted to the
resolved LTR/RTL values compared and queried by the overlay). -/
inductive skb_text_direction_t
  | ltr
  | rtl
deriving DecidableEq

/-- Translation of `skb_is_rtl` as used by the overlay. -/
def skb_is_rtl : skb_text_direction_t → Bool
  | .rtl => true
  | .ltr => false

/-- The text position `skb_text_position_t`: offset and affinity. -/
structure skb_text_position_t where
  offset : ℤ
  affinity : skb_affinity_t
deriving DecidableEq

/-- One side of a caret-iterator boundary
(`skb_caret_iterator_result_t`): direction and text position. -/
structure skb_caret_iterator_result_t where
  direction : skb_text_direction_t
  text_position : skb_text_position_t
deriving DecidableEq

/-- A caret marker emitted by the caret-details overlay: the direction
and text position it is labeled with, the horizontal orientation of its
triangle (`tri_dx`, −5 points left, +5 points right), and the extra
vertical offset applied to its text label. -/
structure caret_marker where
  direction : skb_text_direction_t
  text_position : skb_text_position_t
  tri_dx : ℚ
  label_y_offset : ℚ
deriving DecidableEq

/-- Translation of the caret-boundary loop body of `testbed_on_update`
(example_testbed.c:672-694): given the `left`/`right` iterator results,
the advance to the next boundary and the incoming `left_text_offset`
state, it returns the markers drawn at this boundary and the outgoing
`left_text_offset`.  At a direction-change boundary two markers are
drawn (the left one labeled with `left` and offset by the incoming
state, the right one labeled with `right`); at a single-direction
boundary one marker is drawn, oriented and labeled by `right` when its
affinity is TRAILING, otherwise by `left`. -/
def resolve_caret_boundary (left right : skb_caret_iterator_result_t)
    (caret_advance left_text_offset : ℚ) : List caret_marker × ℚ :=
  if left.direction ≠ right.direction then
    ( [ { direction := left.direction, text_position := left.text_position
        , tri_dx := -5, label_y_offset := left_text_offset }
      , { direction := right.direction, text_position := right.text_position
        , tri_dx := 5, label_y_offset := 0 } ]
    , if caret_advance < 40 then 15 else 0 )
  else if right.text_position.affinity = .trailing then
    ( [ { direction := right.direction, text_position := right.text_position
        , tri_dx := if skb_is_rtl right.direction then -5 else 5
        , label_y_offset := 0 } ]
    , if caret_advance < 40 then 15 else 0 )
  else
    ( [ { direction := left.direction, text_position := left.text_position
        , tri_dx := if skb_is_rtl left.direction then -5 else 5
        , label_y_offset := left_text_offset } ]
    , 0 )

/-- Translation of the per-line caret-details pass
(example_testbed.c:662-695): the boundary iterator results are folded
left to right with the `left_text_offset` state initialized to zero at
the start of each line. -/
def resolve_caret_line
    (boundaries : List (skb_caret_iterator_result_t × skb_caret_iterator_result_t × ℚ)) :
    List caret_marker :=
  (boundaries.foldl
    (fun (acc : List caret_marker × ℚ) b =>
      let r := resolve_caret_boundary b.1 b.2.1 b.2.2 acc.2
      (acc.1 ++ r.1, r.2))
    ([], 0)).1

/-- Modelled from the spec: the editor model owned by the
`skb_editor` collaborator, which is not under `src/`.  Text is a
sequence of codepoints; the selection is the range between the anchor
`sel_start` and the active caret edge `sel_end` (§3, Selection). -/
structure editor_model where
  text : List Nat
  sel_start : Nat
  sel_end : Nat
deriving DecidableEq

/-- Modelled from the spec: the selected codepoint range (clipboard-range
text extraction of §6), the characters between the two selection
endpoints. -/
def skb_editor_get_selection_text (e : editor_model) : List Nat :=
  (e.text.drop (min e.sel_start e.sel_end)).take
    (max e.sel_start e.sel_end - min e.sel_start e.sel_end)

/-- Modelled from the spec: the selection count, zero exactly when the
selection is collapsed (§3, Selection invariant). -/
def skb_editor_selection_count (e : editor_model) : Nat :=
  max e.sel_start e.sel_end - min e.sel_start e.sel_end

/-- Modelled from the spec: `skb_editor_cut` deletes the selected range
and collapses the selection to its start. -/
def skb_editor_cut_model (e : editor_model) : editor_model :=
  let lo := min e.sel_start e.sel_end
  let hi := max e.sel_start e.sel_end
  { text := e.text.take lo ++ e.text.drop hi, sel_start := lo, sel_end := lo }

/-- Modelled from the spec: `skb_editor_paste_utf8` replaces the selected
range with the pasted text and collapses the caret after it. -/
def skb_editor_paste_model (e : editor_model) (clip : List Nat) : editor_model :=
  let lo := min e.sel_start e.sel_end
  let hi := max e.sel_start e.sel_end
  { text := e.text.take lo ++ clip ++ e.text.drop hi
  , sel_start := lo + clip.length
  , sel_end := lo + clip.length }

/-- The externally visible state touched by the clipboard shortcuts: the
editor and the system clipboard. -/
structure clipboard_world where
  editor : editor_model
  clipboard : List Nat
deriving DecidableEq

/-- Translation of the cut branch of `testbed_on_key`
(example_testbed.c:319-330): the selection text is extracted and written
to the system clipboard unconditionally, then the editor cut is
performed. -/
def testbed_cut_pressed (w : clipboard_world) : clipboard_world :=
  { editor := skb_editor_cut_model w.editor
  , clipboard := skb_editor_get_selection_text w.editor }

/-- Translation of the copy branch of `testbed_on_key`
(example_testbed.c:331-341): the selection text is extracted and written
to the system clipboard unconditionally; the editor is not touched. -/
def testbed_copy_pressed (w : clipboard_world) : clipboard_world :=
  { w with clipboard := skb_editor_get_selection_text w.editor }

/-- Translation of the paste branch of `testbed_on_key`
(example_testbed.c:270-275): the system clipboard text is pasted into the
editor. -/
def testbed_paste_pressed (w : clipboard_world) : clipboard_world :=
  { w with editor := skb_editor_paste_model w.editor w.clipboard }

/-- The C `int32_t` cast of a rational value truncates toward zero. -/
theorem c_int32_trunc_is_trunc (q : ℚ) : trunc_toward_zero (c_int32_trunc q) q := by
  unfold trunc_toward_zero c_int32_trunc
  by_cases h : 0 ≤ q
  · rw [if_pos h]
    have h0 : (0 : ℤ) ≤ ⌊q⌋ := Int.floor_nonneg.mpr h
    have h1 : ((⌊q⌋ : ℚ)) ≤ q := Int.floor_le q
    have h2 : q < ⌊q⌋ + 1 := Int.lt_floor_add_one q
    have hc : (0 : ℚ) ≤ (⌊q⌋ : ℚ) := by exact_mod_cast h0
    refine ⟨?_, ?_, fun _ => h0, ?_, ?_⟩
    · rw [abs_of_nonneg hc, abs_of_nonneg h]; exact h1
    · rw [abs_of_nonneg hc, abs_of_nonneg h]; exact h2
    · intro hq0
      have hz : q = 0 := le_antisymm hq0 h
      subst hz; simp
    · intro hden heq
      exact hden (by rw [← heq]; exact Rat.den_intCast _)
  · rw [if_neg h]
    have hq : q < 0 := not_le.mp h
    have h0 : ⌈q⌉ ≤ 0 := Int.ceil_le.mpr (by exact_mod_cast le_of_lt hq)
    have h1 : q ≤ ((⌈q⌉ : ℚ)) := Int.le_ceil q
    have h2 : ((⌈q⌉ : ℚ)) < q + 1 := Int.ceil_lt_add_one q
    have hc : ((⌈q⌉ : ℚ)) ≤ 0 := by exact_mod_cast h0
    refine ⟨?_, ?_, ?_, fun _ => h0, ?_⟩
    · rw [abs_of_nonpos hc, abs_of_nonpos (le_of_lt hq)]; linarith
    · rw [abs_of_nonpos hc, abs_of_nonpos (le_of_lt hq)]; linarith
    · intro hq0; exact absurd hq0 h
    · intro hden heq
      exact hden (by rw [← heq]; exact Rat.den_intCast _)

/-- C10: the InputRect published to the IME service has integer
components obtained by truncating toward zero each of
`center + caret.position * scale`, `caret.width * scale` and
`caret.height * scale`, so the platform always receives whole-unit
coordinates and never the exact fractional screen position of the
caret. -/
theorem C10_ime_rect_truncates (v : view_t) (c : skb_visual_caret_t) :
    trunc_toward_zero (update_ime_rect_of v c).x (v.cx + c.x * v.scale) ∧
    trunc_toward_zero (update_ime_rect_of v c).y (v.cy + c.y * v.scale) ∧
    trunc_toward_zero (update_ime_rect_of v c).width (c.width * v.scale) ∧
    trunc_toward_zero (update_ime_rect_of v c).height (c.height * v.scale) :=
  ⟨c_int32_trunc_is_trunc _, c_int32_trunc_is_trunc _, c_int32_trunc_is_trunc _,
    c_int32_trunc_is_trunc _⟩

/-- Witness for C10: with view center x = 1/2, scale 1 and the caret at
the origin, the published x coordinate differs from the exact fractional
screen position. -/
theorem C10_witness :
    ((update_ime_rect_of ⟨1/2, 0, 1⟩ ⟨0, 0, 1, 1⟩).x : ℚ) ≠
      ((⟨1/2, 0, 1⟩ : view_t).cx + (⟨0, 0, 1, 1⟩ : skb_visual_caret_t).x *
        (⟨1/2, 0, 1⟩ : view_t).scale) := by
  have h := (C10_ime_rect_truncates ⟨1/2, 0, 1⟩ ⟨0, 0, 1, 1⟩).1
  unfold trunc_toward_zero at h
  exact h.2.2.2.2 (by norm_num)

/-- C7: mapping a screen point to text space with `transform_mouse_pos`
and back with the `update_ime_rect` mapping `center + p * scale` returns
the original point whenever the scale is nonzero; over the rationals the
round trip is exact. -/
theorem C7_round_trip (v : view_t) (mouse_x mouse_y : ℚ) (h : v.scale ≠ 0) :
    view_to_screen v (transform_mouse_pos v mouse_x mouse_y) = ⟨mouse_x, mouse_y⟩ := by
  unfold view_to_screen transform_mouse_pos
  simp only [skb_vec2_t.mk.injEq]
  constructor <;> field_simp

/-- Witness for C7 at view (1, 2, scale 3) and screen point (4, 5). -/
theorem C7_witness :
    view_to_screen ⟨1, 2, 3⟩ (transform_mouse_pos ⟨1, 2, 3⟩ 4 5) = ⟨4, 5⟩ :=
  C7_round_trip ⟨1, 2, 3⟩ 4 5 (by show (3 : ℚ) ≠ 0; norm_num)

/-- C8: a wheel-scroll event calls the zoom with
`deltaScale = delta_y * 0.2`, so the new scale is
`scale + delta_y * 0.2`; starting from scale 1 a `delta_y` of 5 yields
scale 2; and whenever the old and new scales are nonzero, the text-space
point under the wheel's screen position is unchanged. -/
theorem C8_scroll_zoom (v : view_t) (mouse_x mouse_y delta_x delta_y : ℚ) :
    (testbed_on_mouse_scroll_view v mouse_x mouse_y delta_x delta_y).scale
        = v.scale + delta_y * (1/5) ∧
    (v.scale = 1 → delta_y = 5 →
      (testbed_on_mouse_scroll_view v mouse_x mouse_y delta_x delta_y).scale = 2) ∧
    (v.scale ≠ 0 → v.scale + delta_y * (1/5) ≠ 0 →
      transform_mouse_pos (testbed_on_mouse_scroll_view v mouse_x mouse_y delta_x delta_y)
          mouse_x mouse_y
        = transform_mouse_pos v mouse_x mouse_y) := by
  refine ⟨rfl, ?_, ?_⟩
  · intro h1 h2
    show v.scale + delta_y * (1/5) = 2
    rw [h1, h2]; norm_num
  · intro h0 h1
    have h2 : v.scale * delta_y * 5 + v.scale ^ 2 * 25 ≠ 0 := by
      have h3 : (25 : ℚ) * (v.scale * (v.scale + delta_y * (1/5))) =
          v.scale * delta_y * 5 + v.scale ^ 2 * 25 := by ring
      rw [← h3]
      exact mul_ne_zero (by norm_num) (mul_ne_zero h0 h1)
    unfold testbed_on_mouse_scroll_view view_scroll_zoom transform_mouse_pos
    simp only [skb_vec2_t.mk.injEq]
    constructor <;> · field_simp; ring_nf; field_simp [h2]; ring

/-- Witness for C8: from view (0, 0, scale 1), wheel `delta_y = 5` at
screen point (10, 0) gives scale 2 and preserves the text point under
the wheel position. -/
theorem C8_witness :
    (testbed_on_mouse_scroll_view ⟨0, 0, 1⟩ 10 0 0 5).scale = 2 ∧
    transform_mouse_pos (testbed_on_mouse_scroll_view ⟨0, 0, 1⟩ 10 0 0 5) 10 0
      = transform_mouse_pos ⟨0, 0, 1⟩ 10 0 :=
  ⟨(C8_scroll_zoom ⟨0, 0, 1⟩ 10 0 0 5).2.1 (show (1 : ℚ) = 1 from rfl) rfl,
   (C8_scroll_zoom ⟨0, 0, 1⟩ 10 0 0 5).2.2 (by show (1 : ℚ) ≠ 0; norm_num)
     (by show (1 : ℚ) + 5 * (1/5) ≠ 0; norm_num)⟩

/-- C1 counterexample: a `CONTROL+V` press leaves the gate armed (the
press-only block re-arms it after the paste branch cleared it), and a
`CONTROL+Z` (undo) press leaves it armed as well, so in both cases the
immediately following character event is forwarded to the editor rather
than dropped. -/
theorem C1_counterexample :
    testbed_on_key_allow_char GLFW_KEY_V GLFW_PRESS GLFW_MOD_CONTROL false = true ∧
    testbed_on_key_allow_char GLFW_KEY_Z GLFW_PRESS GLFW_MOD_CONTROL false = true ∧
    testbed_on_char_trace true 118 = [.op_insert_codepoint 118] := by decide

/-- C1 amended: after a key event the gate is cleared exactly when the
event is a press of select-all, cut or copy with CONTROL held, or a
repeat of paste with CONTROL held; undo and redo never clear it, a paste
press is re-armed by the press-only block, a release leaves the gate
unchanged, and the following character event is dropped exactly when the
gate is cleared. -/
theorem C1_amended_gate (key action mods : Nat) (g : Bool) (cp : Nat) :
    (testbed_on_key_allow_char key action mods g = false ↔
      ((action = GLFW_PRESS ∧ (key = GLFW_KEY_A ∨ key = GLFW_KEY_X ∨ key = GLFW_KEY_C) ∧
          mods.land GLFW_MOD_CONTROL ≠ 0) ∨
       (action = GLFW_REPEAT ∧ key = GLFW_KEY_V ∧ mods.land GLFW_MOD_CONTROL ≠ 0) ∨
       (action ≠ GLFW_PRESS ∧ action ≠ GLFW_REPEAT ∧ g = false))) ∧
    (testbed_on_char_trace (testbed_on_key_allow_char key action mods g) cp = [] ↔
      testbed_on_key_allow_char key action mods g = false) := by
  constructor
  · simp only [testbed_on_key_allow_char, GLFW_PRESS, GLFW_REPEAT, GLFW_KEY_A, GLFW_KEY_X,
      GLFW_KEY_C, GLFW_KEY_V, GLFW_MOD_CONTROL]
    by_cases hp : action = 1 <;> by_cases hr : action = 2 <;>
      simp only [hp, hr] <;> split_ifs <;> simp_all <;> omega
  · cases hg : testbed_on_key_allow_char key action mods g
    all_goals simp [testbed_on_char_trace]

/-- C2 counterexample: a right-button press while TextSelect is active
does not leave the drag state unchanged — it starts ViewPan as well —
and the state (drag_view, drag_text) = (true, true) is reachable from
the all-false initial state by a right press followed by a left press. -/
theorem C2_counterexample :
    testbed_on_mouse_button_drag ⟨false, true⟩ GLFW_MOUSE_BUTTON_RIGHT GLFW_PRESS
        = ⟨true, true⟩ ∧
    (⟨true, true⟩ : drag_state_t) ≠ ⟨false, true⟩ ∧
    testbed_on_mouse_button_drag
        (testbed_on_mouse_button_drag ⟨false, false⟩ GLFW_MOUSE_BUTTON_RIGHT GLFW_PRESS)
        GLFW_MOUSE_BUTTON_LEFT GLFW_PRESS = ⟨true, true⟩ := by decide

/-- C2 amended: each press guards only against restarting its own mode —
a right press while ViewPan is active and a left press while TextSelect
is active are no-ops, but a right press always ends with ViewPan active
and a left press always ends with TextSelect active regardless of the
other flag, so (true, true) is reachable. -/
theorem C2_amended_drag (dv dt : Bool) :
    testbed_on_mouse_button_drag ⟨true, dt⟩ GLFW_MOUSE_BUTTON_RIGHT GLFW_PRESS = ⟨true, dt⟩ ∧
    testbed_on_mouse_button_drag ⟨dv, true⟩ GLFW_MOUSE_BUTTON_LEFT GLFW_PRESS = ⟨dv, true⟩ ∧
    testbed_on_mouse_button_drag ⟨dv, dt⟩ GLFW_MOUSE_BUTTON_RIGHT GLFW_PRESS = ⟨true, dt⟩ ∧
    testbed_on_mouse_button_drag ⟨dv, dt⟩ GLFW_MOUSE_BUTTON_LEFT GLFW_PRESS = ⟨dv, true⟩ := by
  cases dv <;> cases dt <;> decide

/-- C3 counterexample: a plain character-input event with the gate armed
dispatches an editor-mutating insert yet publishes no IME rect at all,
against the claimed exactly-one publish. -/
theorem C3_counterexample :
    testbed_on_char_trace true 97 = [.op_insert_codepoint 97] ∧
    publish_count (testbed_on_char_trace true 97) = 0 := by decide

/-- C3 amended: every COMPOSITION/COMMIT/CANCEL IME event publishes the
input rect exactly once; a key event publishes it twice on PRESS (once
per action block), once on REPEAT and never on RELEASE; a plain
character-input event never publishes it; and every mouse-button event
publishes it exactly once. -/
theorem C3_amended_publishes (key action mods : Nat) (sel : Bool)
    (event : ime_event_t) (allow : Bool) (cp : Nat) (s : drag_state_t) (button : Nat) :
    publish_count (ime_handler_trace event) = 1 ∧
    publish_count (testbed_on_key_trace key action mods sel) =
      (if action = GLFW_PRESS then 2 else if action = GLFW_REPEAT then 1 else 0) ∧
    publish_count (testbed_on_char_trace allow cp) = 0 ∧
    publish_count (testbed_on_mouse_button_trace s button action) = 1 := by
  refine ⟨?_, ?_, ?_, ?_⟩
  · cases event <;> rfl
  · simp only [testbed_on_key_trace, publish_count, GLFW_PRESS, GLFW_REPEAT]
    by_cases hp : action = 1 <;> by_cases hr : action = 2 <;>
      simp [hp, hr, List.filter_append, apply_ite (List.filter is_ime_publish),
        is_ime_publish]
  · cases allow <;> rfl
  · simp only [testbed_on_mouse_button_trace, publish_count]
    split_ifs <;> rfl

/-- C4: in `testbed_destroy` the editor model is destroyed strictly
before the in-flight composition is cancelled and before the IME handler
registration is cleared — the reverse of the claimed order. -/
theorem C4_teardown_order :
    testbed_destroy_steps.indexOf destroy_step.skb_editor_destroy_op <
      testbed_destroy_steps.indexOf destroy_step.ime_cancel_op ∧
    testbed_destroy_steps.indexOf destroy_step.skb_editor_destroy_op <
      testbed_destroy_steps.indexOf destroy_step.ime_set_handler_null := by decide

/-- C5: each caret boundary yields at most two markers; a
direction-change boundary yields exactly two, one labeled with the left
side and one with the right side; a single-direction boundary yields
exactly one, oriented along and labeled with `right` when its affinity
is TRAILING, otherwise oriented along and labeled with `left`. -/
theorem C5_resolver (left right : skb_caret_iterator_result_t) (adv off : ℚ) :
    (resolve_caret_boundary left right adv off).1.length ≤ 2 ∧
    (left.direction ≠ right.direction →
      (resolve_caret_boundary left right adv off).1 =
        [ ⟨left.direction, left.text_position, -5, off⟩
        , ⟨right.direction, right.text_position, 5, 0⟩ ]) ∧
    (left.direction = right.direction → right.text_position.affinity = .trailing →
      (resolve_caret_boundary left right adv off).1 =
        [⟨right.direction, right.text_position,
          if skb_is_rtl right.direction then -5 else 5, 0⟩]) ∧
    (left.direction = right.direction → right.text_position.affinity ≠ .trailing →
      (resolve_caret_boundary left right adv off).1 =
        [⟨left.direction, left.text_position,
          if skb_is_rtl left.direction then -5 else 5, off⟩]) := by
  unfold resolve_caret_boundary
  split_ifs with h1 h2 <;> simp_all

/-- Witness for C5 at a concrete direction-change boundary. -/
theorem C5_witness :
    (resolve_caret_boundary ⟨.ltr, ⟨0, .trailing⟩⟩ ⟨.rtl, ⟨1, .leading⟩⟩ 10 0).1 =
      [ ⟨.ltr, ⟨0, .trailing⟩, -5, 0⟩, ⟨.rtl, ⟨1, .leading⟩, 5, 0⟩ ] :=
  (C5_resolver ⟨.ltr, ⟨0, .trailing⟩⟩ ⟨.rtl, ⟨1, .leading⟩⟩ 10 0).2.1 (by decide)

/-- C6 counterexample: on a line whose single boundary is a
direction-change boundary with advance 10 < 40, the left-side label of
that same boundary is drawn with vertical offset 0, not 15 — the
threshold only feeds the offset state for the next boundary. -/
theorem C6_counterexample :
    (resolve_caret_line [(⟨.rtl, ⟨1, .leading⟩⟩, ⟨.ltr, ⟨1, .trailing⟩⟩, 10)]).map
        caret_marker.label_y_offset = [0, 0] ∧
    (0 : ℚ) ≠ 15 := by
  refine ⟨?_, by norm_num⟩
  simp [resolve_caret_line, resolve_caret_boundary]

/-- C6 amended: the overlap offset computed from a boundary's
advance-to-next applies to the left-side label of the NEXT boundary: the
outgoing offset state is 15 when the advance is below 40 and 0 otherwise
in the direction-change and single-direction TRAILING branches, and is
reset to 0 in the single-direction LEADING branch, while the current
boundary's left-side label is offset by the incoming state (0 at the
start of a line); on a line with two direction-change boundaries whose
first advance is 10, the second boundary's left label is offset by 15. -/
theorem C6_amended_offset (l r : skb_caret_iterator_result_t) (adv off : ℚ) :
    ((resolve_caret_boundary l r adv off).2 =
      if l.direction = r.direction ∧ r.text_position.affinity ≠ .trailing then 0
      else if adv < 40 then 15 else 0) ∧
    ((resolve_caret_boundary l r adv off).1.head?.map caret_marker.label_y_offset =
      some (if l.direction = r.direction ∧ r.text_position.affinity = .trailing
            then 0 else off)) ∧
    ((resolve_caret_line
        [ (⟨.ltr, ⟨0, .trailing⟩⟩, ⟨.rtl, ⟨1, .leading⟩⟩, 10)
        , (⟨.ltr, ⟨2, .trailing⟩⟩, ⟨.rtl, ⟨3, .leading⟩⟩, 100) ]).map
          caret_marker.label_y_offset = [0, 0, 15, 0]) := by
  refine ⟨?_, ?_, ?_⟩
  · unfold resolve_caret_boundary
    split_ifs <;> simp_all
  · unfold resolve_caret_boundary
    split_ifs <;> simp_all
  · have h40 : ((10 : ℚ) < 40) = True := by norm_num
    simp [resolve_caret_line, resolve_caret_boundary, h40]

/-- C9 counterexample: a copy press with a zero-length selection does
not leave the externally visible state unchanged — it overwrites the
system clipboard with the empty selection text. -/
theorem C9_counterexample :
    (testbed_copy_pressed ⟨⟨[97, 98], 1, 1⟩, [104]⟩).clipboard = [] ∧
    (testbed_copy_pressed ⟨⟨[97, 98], 1, 1⟩, [104]⟩).clipboard ≠ [104] := by decide

/-- C9 amended: with a zero-length selection, cut and copy never abort
and leave the editor text unchanged (copy leaves the whole editor
unchanged), but both still write the empty selection text to the system
clipboard; pasting an empty clipboard with a collapsed selection inserts
nothing and leaves the text unchanged. -/
theorem C9_amended_fallback (w : clipboard_world) :
    (skb_editor_selection_count w.editor = 0 →
      (testbed_cut_pressed w).editor.text = w.editor.text ∧
      (testbed_copy_pressed w).editor = w.editor ∧
      (testbed_cut_pressed w).clipboard = [] ∧
      (testbed_copy_pressed w).clipboard = []) ∧
    (w.clipboard = [] → skb_editor_selection_count w.editor = 0 →
      (testbed_paste_pressed w).editor.text = w.editor.text) := by
  constructor
  · intro h0
    have heq : max w.editor.sel_start w.editor.sel_end
        = min w.editor.sel_start w.editor.sel_end := by
      unfold skb_editor_selection_count at h0
      have := min_le_max (a := w.editor.sel_start) (b := w.editor.sel_end)
      omega
    refine ⟨?_, rfl, ?_, ?_⟩
    · unfold testbed_cut_pressed skb_editor_cut_model
      simp only [heq, List.take_append_drop]
    · unfold testbed_cut_pressed skb_editor_get_selection_text
      simp [heq]
    · unfold testbed_copy_pressed skb_editor_get_selection_text
      simp [heq]
  · intro hclip h0
    have heq : max w.editor.sel_start w.editor.sel_end
        = min w.editor.sel_start w.editor.sel_end := by
      unfold skb_editor_selection_count at h0
      have := min_le_max (a := w.editor.sel_start) (b := w.editor.sel_end)
      omega
    unfold testbed_paste_pressed skb_editor_paste_model
    simp only [hclip, heq, List.append_nil, List.nil_append, List.take_append_drop]

/-- Witness for C9 with text "ab", collapsed selection at offset 1 and
empty clipboard. -/
theorem C9_witness :
    (testbed_cut_pressed ⟨⟨[97, 98], 1, 1⟩, []⟩).editor.text = [97, 98] ∧
    (testbed_paste_pressed ⟨⟨[97, 98], 1, 1⟩, []⟩).editor.text = [97, 98] :=
  ⟨((C9_amended_fallback ⟨⟨[97, 98], 1, 1⟩, []⟩).1 (by decide)).1,
   (C9_amended_fallback ⟨⟨[97, 98], 1, 1⟩, []⟩).2 rfl (by decide)⟩
